import Mathlib

/-!
# Verification of `allmydata/client.py` (Tahoe-LAFS client core)

A shallow embedding, in Lean 4, of the classes and functions of
`src/allmydata/client.py` that the specification talks about:
`SecretHolder`, `KeyGenerator`, `_Client.init_client` (encoding
parameters), `_Client._init_permutation_seed`, `_Client.init_storage`
(storage server construction, lease-expiration share types),
`_Client.create_node_from_uri` and `_Client.init_magic_folder`.

Python byte strings are modelled as `List Nat` (one entry per byte),
Python text strings as Lean `String`, `None`-able values as `Option`,
raised exceptions as `Except PyErr`, and Twisted `Deferred`s as an
explicit fired/pending datatype.  Functions from modules of the
repository that are not part of the excerpt (`allmydata.util.base32`,
`allmydata.util.hashutil`, `allmydata.crypto`, the config-file store,
`NodeMaker`) are modelled from the specification; each such definition
says so in its doc comment.
-/

namespace TahoeClient

/-- A raised Python exception, as our embedding sees it: the kind of the
exception plus its message. -/
inductive PyErr : Type
  | valueError (msg : String)
  | missingConfigEntry (msg : String)
  deriving Repr, DecidableEq

instance {ε α : Type} [DecidableEq ε] [DecidableEq α] :
    DecidableEq (Except ε α) := fun a b =>
  match a, b with
  | Except.ok x, Except.ok y =>
    if h : x = y then isTrue (by rw [h])
    else isFalse (by intro hc; cases hc; exact h rfl)
  | Except.error x, Except.error y =>
    if h : x = y then isTrue (by rw [h])
    else isFalse (by intro hc; cases hc; exact h rfl)
  | Except.ok _, Except.error _ => isFalse (by intro hc; cases hc)
  | Except.error _, Except.ok _ => isFalse (by intro hc; cases hc)

/-- The characters Python's `str.strip()` removes from both ends. -/
def isPySpace (c : Char) : Bool :=
  c = ' ' || c = '\t' || c = '\n' || c = '\r' || c = '\x0b' || c = '\x0c'

/-- Python `str.strip()` on a list of characters. -/
def pyStripList (l : List Char) : List Char :=
  ((l.dropWhile isPySpace).reverse.dropWhile isPySpace).reverse

/-- Python `str.strip()`. -/
def pyStrip (s : String) : String :=
  ⟨pyStripList s.data⟩

/-- Python truthiness of an optional string: `None` and `""` are falsy. -/
def pyTruthyOptStr (s : Option String) : Bool :=
  match s with
  | none => false
  | some s => s ≠ ""

/-- Python `str.startswith`, character by character. -/
def strStartsWith (s pat : String) : Bool :=
  pat.data.isPrefixOf s.data

/-- Modelled from the spec: `allmydata.util.base32` is not part of the
excerpt.  The announcement interface requires "a base32-encoded
permutation-seed", so `b2a` is the standard base-32 encoding (RFC 3548
lower-case alphabet, no padding) of a byte string. -/
def base32Alphabet : List Char := "abcdefghijklmnopqrstuvwxyz234567".data

/-- The eight bits of a byte, most significant first. -/
def byteToBits (b : Nat) : List Bool :=
  [b / 128 % 2 = 1, b / 64 % 2 = 1, b / 32 % 2 = 1, b / 16 % 2 = 1,
   b / 8 % 2 = 1, b / 4 % 2 = 1, b / 2 % 2 = 1, b % 2 = 1]

/-- Split a bit string into 5-bit groups, zero-padding the last group. -/
def chunk5 : List Bool → List (List Bool)
  | [] => []
  | a :: b :: c :: d :: e :: rest => [a, b, c, d, e] :: chunk5 rest
  | [a] => [[a, false, false, false, false]]
  | [a, b] => [[a, b, false, false, false]]
  | [a, b, c] => [[a, b, c, false, false]]
  | [a, b, c, d] => [[a, b, c, d, false]]

/-- The value of a 5-bit group, most significant bit first. -/
def groupVal (g : List Bool) : Nat :=
  g.foldl (fun a b => 2 * a + (if b then 1 else 0)) 0

/-- Modelled from the spec: `base32.b2a`, base-32 encoding of a byte
string as a list of characters. -/
def b2aList (bs : List Nat) : List Char :=
  (chunk5 ((bs.map byteToBits).flatten)).map
    (fun g => base32Alphabet.getD (groupVal g) 'a')

/-- Modelled from the spec: `base32.b2a` returning a Lean `String`. -/
def b2a (bs : List Nat) : String :=
  ⟨b2aList bs⟩

/-! ## SecretHolder (`client.py` lines 117–129)

The tagged hashes of `allmydata.util.hashutil` are outside the excerpt;
the spec treats hash primitives as black boxes ("RSA/Ed25519/hash
primitives (treated as black-box primitives with stated contracts)") and
states that lease-secret derivations "are pure one-way hash functions of
the RootSecret".  We model the tagged hash as a pure injective function
of the tag and the input. -/
def tagged_hash (tag : List Nat) (val : List Nat) : List Nat :=
  tag.length :: (tag ++ val)

/-- The ASCII bytes of a string, used to build hash tags. -/
def asciiBytes (s : String) : List Nat := s.data.map Char.toNat

/-- Modelled from the spec: `hashutil.my_renewal_secret_hash`, a pure
tagged hash of the client's lease secret. -/
def my_renewal_secret_hash (my_secret : List Nat) : List Nat :=
  tagged_hash (asciiBytes "bucket_renewal_secret") my_secret

/-- Modelled from the spec: `hashutil.my_cancel_secret_hash`, a pure
tagged hash of the client's lease secret. -/
def my_cancel_secret_hash (my_secret : List Nat) : List Nat :=
  tagged_hash (asciiBytes "bucket_cancel_secret") my_secret

/-- `class SecretHolder` (`client.py` lines 117–129): holds the lease
secret and the convergence secret read at `init_secrets` time. -/
structure SecretHolder where
  lease_secret : List Nat
  convergence_secret : List Nat
  deriving Repr, DecidableEq

/-- `SecretHolder.get_renewal_secret` (`client.py` line 122). -/
def SecretHolder.get_renewal_secret (sh : SecretHolder) : List Nat :=
  my_renewal_secret_hash sh.lease_secret

/-- `SecretHolder.get_cancel_secret` (`client.py` line 125). -/
def SecretHolder.get_cancel_secret (sh : SecretHolder) : List Nat :=
  my_cancel_secret_hash sh.lease_secret

/-- `SecretHolder.get_convergence_secret` (`client.py` line 128). -/
def SecretHolder.get_convergence_secret (sh : SecretHolder) : List Nat :=
  sh.convergence_secret

/-! ## KeyGenerator (`client.py` lines 131–159) -/

/-- Modelled from the spec: RSA keys are black-box primitives; we record
only the strength (bit size) each key was generated with. -/
structure SigningKey where
  bits : Nat
  deriving Repr, DecidableEq

/-- Modelled from the spec: an RSA verifying key of a given strength. -/
structure VerifyingKey where
  bits : Nat
  deriving Repr, DecidableEq

/-- Modelled from the spec: `rsa.create_signing_keypair(keysize)` returns
a `(signing key, verifying key)` pair of the requested strength. -/
def create_signing_keypair (keysize : Nat) : SigningKey × VerifyingKey :=
  (⟨keysize⟩, ⟨keysize⟩)

/-- A Twisted `Deferred`, as the embedding sees it: either already fired
with its value, or still pending. `defer.succeed(x)` builds an
already-fired Deferred, so the fired/pending distinction is what makes
"the result was computed before the Deferred was returned" observable. -/
inductive Deferred (α : Type) : Type
  | fired (value : α)
  | pending
  deriving Repr, DecidableEq

/-- `defer.succeed`: an already-fired Deferred. -/
def defer_succeed {α : Type} (a : α) : Deferred α :=
  Deferred.fired a

/-- Is the Deferred still pending (its value not yet computed)? -/
def Deferred.isPending {α : Type} : Deferred α → Bool
  | .fired _ => false
  | .pending => true

/-- `class KeyGenerator` (`client.py` lines 131–159): its only state is
the process-wide default keysize. -/
structure KeyGenerator where
  default_keysize : Nat
  deriving Repr, DecidableEq

/-- `KeyGenerator.__init__` (`client.py` line 136): the built-in default
is 2048 bits. -/
def KeyGenerator.init : KeyGenerator :=
  { default_keysize := 2048 }

/-- `KeyGenerator.set_default_keysize` (`client.py` line 139). -/
def KeyGenerator.set_default_keysize (kg : KeyGenerator) (keysize : Nat) :
    KeyGenerator :=
  { kg with default_keysize := keysize }

/-- Python `keysize or default` on an optional integer argument: `None`
and `0` are falsy, so both select the default. -/
def pyOrNat (keysize : Option Nat) (d : Nat) : Nat :=
  match keysize with
  | none => d
  | some k => if k = 0 then d else k

/-- `KeyGenerator.generate` (`client.py` lines 148–159): picks the
keysize via `keysize or self.default_keysize`, generates the keypair
synchronously, and returns `defer.succeed((verifier, signer))` — an
already-fired Deferred — together with the (unchanged) generator
state. -/
def KeyGenerator.generate (kg : KeyGenerator) (keysize : Option Nat) :
    Deferred (VerifyingKey × SigningKey) × KeyGenerator :=
  let ks := pyOrNat keysize kg.default_keysize
  let p := create_signing_keypair ks
  (defer_succeed (p.2, p.1), kg)

/-- The strength of the keypair a fired Deferred carries, if fired. -/
def generatedBits (d : Deferred (VerifyingKey × SigningKey)) : Option Nat :=
  match d with
  | .fired (v, _) => some v.bits
  | .pending => none

/-! ## Encoding parameters and `init_client` (`client.py` lines 397–406, 589–597) -/

/-- Modelled from the spec: `DEFAULT_MAX_SEGMENT_SIZE` comes from
`allmydata.interfaces` (outside the excerpt); the spec only requires "a
maximum segment size in bytes". -/
def DEFAULT_MAX_SEGMENT_SIZE : Int := 131072

/-- The client's encoding-parameter dictionary: `k` shares needed,
`happy` servers desired, `n` total shares, and the maximum segment
size. -/
structure EncodingParams where
  k : Int
  happy : Int
  n : Int
  max_segment_size : Int
  deriving Repr, DecidableEq

/-- `_Client.DEFAULT_ENCODING_PARAMETERS` (`client.py` lines 402–406):
`k = 3`, `happy = 7`, `n = 10`. -/
def DEFAULT_ENCODING_PARAMETERS : EncodingParams :=
  { k := 3, happy := 7, n := 10, max_segment_size := DEFAULT_MAX_SEGMENT_SIZE }

/-- The `[client]` config entries `init_client` reads, already converted
to integers (`int(...)` of the config strings); `none` means the entry
is absent so the built-in default applies. -/
structure ClientConfig where
  shares_needed : Option Int
  shares_happy : Option Int
  shares_total : Option Int
  deriving Repr, DecidableEq

/-- The encoding-parameter part of `_Client.init_client` (`client.py`
lines 594–597): each of `k`, `n`, `happy` is read from the config with
the current (default) value as fall-back and stored as-is.  No
validation of any kind is performed and no exception is raised. -/
def init_client_encoding_params (cfg : ClientConfig) (dep : EncodingParams) :
    Except PyErr EncodingParams :=
  let dep := { dep with k := cfg.shares_needed.getD dep.k }
  let dep := { dep with n := cfg.shares_total.getD dep.n }
  let dep := { dep with happy := cfg.shares_happy.getD dep.happy }
  Except.ok dep

/-- Do encoding parameters satisfy the documented invariant
`1 ≤ k ≤ happy ≤ n`? -/
def validEncodingParams (p : EncodingParams) : Bool :=
  1 ≤ p.k && p.k ≤ p.happy && p.happy ≤ p.n

/-! ## Permutation seed (`client.py` lines 499–519) -/

/-- Modelled from the spec: an Ed25519 public key is a black-box
primitive; we keep only its raw bytes. -/
structure Ed25519PublicKey where
  bytes : List Nat
  deriving Repr, DecidableEq

/-- Modelled from the spec: `ed25519.PUBLIC_KEY_PREFIX`, the tag that
`string_from_verifying_key` puts in front of the base-32 key bytes. -/
def PUBLIC_KEY_PFX : String := "pub-v0-"

/-- Modelled from the spec: `ed25519.string_from_verifying_key` renders
a public key as the tag followed by the base-32 encoding of its
bytes. -/
def string_from_verifying_key (k : Ed25519PublicKey) : String :=
  PUBLIC_KEY_PFX ++ b2a k.bytes

/-- Modelled from the spec: `allmydata.crypto.util.remove_prefix` strips
a required leading tag from a string. -/
def removePfx (s : String) (pfx : String) : String :=
  ⟨s.data.drop pfx.data.length⟩

/-- The node-directory files `_init_permutation_seed` touches: the
contents of `BASEDIR/permutation-seed`, or `none` when the file does not
exist (`config.get_config_from_file` returns `None` then). -/
structure SeedStore where
  permutation_seed_file : Option String
  deriving Repr, DecidableEq

/-- `_Client._init_permutation_seed` (`client.py` lines 499–519).  Reads
`permutation-seed`; if that is falsy (missing or empty), picks
`base32.b2a(self.nodeid)` when the storage server already has shares and
the base-32 public-key bytes otherwise, and persists the choice with a
trailing newline; in every case the returned value is the chosen seed,
stripped.  `nodeid` is the TubID bytes, `pubkey` the node's Ed25519
public key, `have_shares` the result of `ss.have_shares()`. -/
def init_permutation_seed (st : SeedStore) (have_shares : Bool)
    (nodeid : List Nat) (pubkey : Ed25519PublicKey) : String × SeedStore :=
  let seed0 := st.permutation_seed_file
  if pyTruthyOptStr seed0 then
    (pyStrip (seed0.getD ""), st)
  else
    let seed :=
      if have_shares then
        b2a nodeid
      else
        let vk_string := string_from_verifying_key pubkey
        let vk_bytes := removePfx vk_string PUBLIC_KEY_PFX
        b2a (asciiBytes vk_bytes)
    (pyStrip seed, { st with permutation_seed_file := some (seed ++ "\n") })

/-! ## `init_storage` (`client.py` lines 521–587) -/

/-- The `[storage]` section of the configuration, with each entry
`none` when absent.  Boolean entries are already parsed the way
`get_config(..., boolean=True)` parses them. -/
structure StorageConfig where
  enabled : Option Bool
  readonly : Option Bool
  storage_dir : Option String
  reserved_space : Option String
  debug_discard : Option Bool
  expire_enabled : Option Bool
  expire_mode : Option String
  expire_override_lease_duration : Option String
  expire_cutoff_date : Option String
  expire_immutable : Option Bool
  expire_mutable : Option Bool
  deriving Repr, DecidableEq

/-- A `[storage]` section with every entry absent (all defaults). -/
def StorageConfig.default : StorageConfig :=
  ⟨none, none, none, none, none, none, none, none, none, none, none⟩

/-- `get_config` with no default: a missing required entry raises. -/
def requireConfig (section_ key : String) (v : Option String) :
    Except PyErr String :=
  match v with
  | some s => Except.ok s
  | none => Except.error (PyErr.missingConfigEntry (section_ ++ " " ++ key))

/-- Is the character an ASCII digit? -/
def isDigitChar (c : Char) : Bool := '0' ≤ c && c ≤ '9'

/-- The numeric value of a digit string (most significant first). -/
def digitsVal (l : List Char) : Nat :=
  l.foldl (fun a c => 10 * a + (c.toNat - '0'.toNat)) 0

/-- Modelled from the spec: `parse_abbreviated_size` (from
`allmydata.util.abbreviate`, outside the excerpt) turns an operator
byte-count string such as `"10000000"`, `"5G"` or `"100GiB"` into a byte
count; `None` passes through, and an unparseable value raises
`ValueError`. -/
def parse_abbreviated_size (s : Option String) : Except PyErr (Option Nat) :=
  match s with
  | none => Except.ok none
  | some s =>
    let digits := s.data.takeWhile isDigitChar
    let suffix := s.data.dropWhile isDigitChar
    if digits = [] then
      Except.error (PyErr.valueError "unparseable value")
    else
      let mult : Except PyErr Nat :=
        if suffix = [] then Except.ok 1
        else if suffix = ['K'] || suffix = ['K', 'i', 'B'] then Except.ok 1024
        else if suffix = ['M'] || suffix = ['M', 'i', 'B'] then
          Except.ok (1024 * 1024)
        else if suffix = ['G'] || suffix = ['G', 'i', 'B'] then
          Except.ok (1024 * 1024 * 1024)
        else Except.error (PyErr.valueError "unparseable suffix")
      match mult with
      | Except.ok m => Except.ok (some (digitsVal digits * m))
      | Except.error e => Except.error e

/-- Modelled from the spec: `parse_duration` (from
`allmydata.util.time_format`) turns a duration string such as `"31days"`
into seconds; we parse a leading integer of days and raise on anything
unparseable. -/
def parse_duration (s : String) : Except PyErr Nat :=
  let digits := s.data.takeWhile isDigitChar
  if digits = [] then Except.error (PyErr.valueError "no number in duration")
  else Except.ok (digitsVal digits * 86400)

/-- Modelled from the spec: `parse_date` (from
`allmydata.util.time_format`) turns an ISO-8601 date string into a
timestamp; we keep the date digits as an abstract ordinal and raise when
no digits are present. -/
def parse_date (s : String) : Except PyErr Nat :=
  let digits := s.data.filter isDigitChar
  if digits = [] then Except.error (PyErr.valueError "no date")
  else Except.ok (digitsVal digits)

/-- The arguments `init_storage` passes to the `StorageServer`
constructor (`client.py` lines 569–578); the constructed server, for our
purposes. -/
structure StorageServer where
  storedir : String
  nodeid : List Nat
  reserved_space : Nat
  discard_storage : Bool
  readonly_storage : Bool
  expiration_enabled : Bool
  expiration_mode : String
  expiration_override_lease_duration : Option Nat
  expiration_cutoff_date : Option Nat
  expiration_sharetypes : List String
  deriving Repr, DecidableEq

/-- `_Client.STOREDIR` (`client.py` line 389). -/
def STOREDIR : String := "storage"

/-- `_Client.init_storage` (`client.py` lines 521–587).  Returns
`Except.ok none` when `[storage]enabled` is false (the method returns
without constructing anything), `Except.error` for the exceptions the
method can raise — notably the `ValueError` when storage is enabled but
the tub is not listening — and `Except.ok (some ss)` with the
constructed `StorageServer` otherwise.  `tub_listening` is
`self._is_tub_listening()`; `basedir ++ "/"` prefixing stands for
`config.get_config_path`. -/
def init_storage (cfg : StorageConfig) (tub_listening : Bool)
    (nodeid : List Nat) (basedir : String) :
    Except PyErr (Option StorageServer) :=
  if ¬ cfg.enabled.getD true then
    Except.ok none
  else if ¬ tub_listening then
    Except.error (PyErr.valueError
      "config error: storage is enabled, but tub is not listening")
  else
    let readonly := cfg.readonly.getD false
    let config_storedir := cfg.storage_dir.getD STOREDIR
    let storedir := basedir ++ "/" ++ config_storedir
    match parse_abbreviated_size cfg.reserved_space with
    | Except.error e => Except.error e
    | Except.ok reserved? =>
      let reserved := reserved?.getD 0
      let discard := cfg.debug_discard.getD false
      let expire := cfg.expire_enabled.getD false
      let mode? : Except PyErr String :=
        if expire then requireConfig "storage" "expire.mode" cfg.expire_mode
        else Except.ok (cfg.expire_mode.getD "age")
      match mode? with
      | Except.error e => Except.error e
      | Except.ok mode =>
        let o_l_d? : Except PyErr (Option Nat) :=
          match cfg.expire_override_lease_duration with
          | none => Except.ok none
          | some s =>
            match parse_duration s with
            | Except.error e => Except.error e
            | Except.ok d => Except.ok (some d)
        match o_l_d? with
        | Except.error e => Except.error e
        | Except.ok o_l_d =>
          let cutoff? : Except PyErr (Option Nat) :=
            if mode = "cutoff-date" then
              match requireConfig "storage" "expire.cutoff_date"
                  cfg.expire_cutoff_date with
              | Except.error e => Except.error e
              | Except.ok s =>
                match parse_date s with
                | Except.error e => Except.error e
                | Except.ok d => Except.ok (some d)
            else Except.ok none
          match cutoff? with
          | Except.error e => Except.error e
          | Except.ok cutoff_date =>
            let sharetypes : List String :=
              (if cfg.expire_immutable.getD true then ["immutable"] else [])
              ++ (if cfg.expire_mutable.getD true then ["mutable"] else [])
            Except.ok (some
              { storedir := storedir
                nodeid := nodeid
                reserved_space := reserved
                discard_storage := discard
                readonly_storage := readonly
                expiration_enabled := expire
                expiration_mode := mode
                expiration_override_lease_duration := o_l_d
                expiration_cutoff_date := cutoff_date
                expiration_sharetypes := sharetypes })

/-! ## `create_node_from_uri` (`client.py` lines 815–819)

`NodeMaker` itself is outside the excerpt; the dispatch is modelled from
the spec: "Dispatches on the capability's tagged form (immutable-file /
mutable-file / directory, each read or read-write) ...  Malformed or
unrecognized capability strings never raise outward during dispatch —
they yield an explicit unusable-node value". -/

/-- Modelled from the spec: the closed tagged union of capability kinds
("represent as a closed tagged union ... decoded once at parse
time"). -/
inductive CapKind : Type
  | immutableRead
  | mutableWrite
  | mutableRead
  | directoryWrite
  | directoryRead
  deriving Repr, DecidableEq

/-- Modelled from the spec: prefix-sniffing parse of a capability string
("dynamic capability dispatch by string-prefix sniffing"); the longer
tags are tested before their proper prefixes.  An unrecognized tag
raises at this (inner) level. -/
def parse_cap (s : String) : Except PyErr (CapKind × String) :=
  if strStartsWith s "URI:DIR2-RO:" then Except.ok (CapKind.directoryRead, s)
  else if strStartsWith s "URI:DIR2:" then Except.ok (CapKind.directoryWrite, s)
  else if strStartsWith s "URI:SSK-RO:" then Except.ok (CapKind.mutableRead, s)
  else if strStartsWith s "URI:SSK:" then Except.ok (CapKind.mutableWrite, s)
  else if strStartsWith s "URI:CHK:" then Except.ok (CapKind.immutableRead, s)
  else Except.error (PyErr.valueError "unknown URI type")

/-- Modelled from the spec: the typed handles `NodeMaker` produces,
including the explicit "unusable node" variant for capabilities it
cannot understand. -/
inductive TahoeNode : Type
  | immutableFile (cap : String)
  | mutableFile (cap : String) (writable : Bool)
  | directoryNode (cap : String) (writable : Bool)
  | unknownNode (rw_uri : Option String) (ro_uri : Option String)
  deriving Repr, DecidableEq

/-- Modelled from the spec: `NodeMaker.create_from_cap`.  Dispatch picks
the write capability when given, else the read capability; a parse
failure is caught and becomes an `unknownNode` value instead of
propagating.  (`deep_immutable` and `name` are passed through by
`create_node_from_uri` but play no role in the spec's dispatch
contract.) -/
def create_from_cap (writecap : Option String) (readcap : Option String)
    (deep_immutable : Bool) (name : String) : TahoeNode :=
  let capstr := writecap.getD (readcap.getD "")
  match parse_cap capstr with
  | Except.ok (CapKind.immutableRead, c) => TahoeNode.immutableFile c
  | Except.ok (CapKind.mutableWrite, c) => TahoeNode.mutableFile c true
  | Except.ok (CapKind.mutableRead, c) => TahoeNode.mutableFile c false
  | Except.ok (CapKind.directoryWrite, c) => TahoeNode.directoryNode c true
  | Except.ok (CapKind.directoryRead, c) => TahoeNode.directoryNode c false
  | Except.error _ => TahoeNode.unknownNode writecap readcap

/-- `_Client.create_node_from_uri` (`client.py` lines 815–819): a
synchronous call that simply forwards to `NodeMaker.create_from_cap`;
the `Except` result records whether the dispatch can raise (it
cannot). -/
def create_node_from_uri (writecap : Option String) (readcap : Option String)
    (deep_immutable : Bool) (name : String) : Except PyErr TahoeNode :=
  Except.ok (create_from_cap writecap readcap deep_immutable name)

/-! ## `init_magic_folder` (`client.py` lines 739–771) -/

/-- One configured magic folder as `init_magic_folder` sets it up: its
name and the threshold handed to
`storage_broker.when_connected_enough(...)`, whose firing triggers
`mf.ready()`. -/
structure MagicFolderEntry where
  name : String
  connected_threshold : Int
  deriving Repr, DecidableEq

/-- The magic-folder part of `_Client.init_magic_folder` (`client.py`
lines 747–771): when the frontend is enabled, every configured folder is
started and its `ready()` is chained to
`when_connected_enough(threshold)` with
`threshold = min(encoding_params["k"], encoding_params["happy"] + 1)`
(`client.py` lines 758–759). -/
def init_magic_folder (enabled : Bool) (encoding_params : EncodingParams)
    (folders : List String) : List MagicFolderEntry :=
  if enabled then
    let threshold := min encoding_params.k (encoding_params.happy + 1)
    folders.map (fun nm => { name := nm, connected_threshold := threshold })
  else
    []

/-! ## Theorems -/

/-- C1: for every fixed root lease secret, `get_renewal_secret` and
`get_cancel_secret` are deterministic pure functions of that secret:
two `SecretHolder`s built from the same lease secret (whatever their
other state, i.e. their convergence secrets) give identical renewal and
cancel secrets, each a function of the lease secret alone. -/
theorem secretholder_secrets_deterministic :
    ∀ (ls c₁ c₂ : List Nat),
      SecretHolder.get_renewal_secret ⟨ls, c₁⟩ =
        SecretHolder.get_renewal_secret ⟨ls, c₂⟩ ∧
      SecretHolder.get_cancel_secret ⟨ls, c₁⟩ =
        SecretHolder.get_cancel_secret ⟨ls, c₂⟩ ∧
      SecretHolder.get_renewal_secret ⟨ls, c₁⟩ = my_renewal_secret_hash ls ∧
      SecretHolder.get_cancel_secret ⟨ls, c₁⟩ = my_cancel_secret_hash ls := by
  intro ls c₁ c₂
  exact ⟨rfl, rfl, rfl, rfl⟩

/-- C9: `generate` treats every falsy keysize argument as unspecified:
`generate(0)` behaves exactly like `generate(None)` and produces a key of
the current default keysize, not a 0-bit key. -/
theorem keygenerator_generate_falsy_keysize :
    ∀ kg : KeyGenerator,
      kg.generate (some 0) = kg.generate none ∧
      generatedBits (kg.generate (some 0)).1 = some kg.default_keysize := by
  intro kg
  exact ⟨rfl, rfl⟩

/-- C4 counterexample: the claim says a call that passes an explicit
keysize uses exactly that size, but `generate(0)` on a fresh generator
produces a 2048-bit key, not a 0-bit key. -/
theorem keygenerator_explicit_keysize_cex :
    generatedBits (KeyGenerator.init.generate (some 0)).1 = some 2048 ∧
    (2048 : Nat) ≠ 0 := by
  exact ⟨rfl, by decide⟩

/-- C4 (amended): `generate()` without a keysize uses the process-wide
default — 2048 on a fresh generator, otherwise the most recent value
passed to `set_default_keysize` — and a call passing an explicit
*nonzero* keysize uses exactly that size and leaves the default
unchanged. -/
theorem keygenerator_default_and_explicit (kg : KeyGenerator) (d k : Nat)
    (hk : k ≠ 0) :
    generatedBits (KeyGenerator.init.generate none).1 = some 2048 ∧
    generatedBits ((KeyGenerator.init.set_default_keysize d).generate none).1
      = some d ∧
    generatedBits (kg.generate (some k)).1 = some k ∧
    (kg.generate (some k)).2 = kg := by
  refine ⟨rfl, rfl, ?_, rfl⟩
  simp [KeyGenerator.generate, pyOrNat, generatedBits, defer_succeed,
    create_signing_keypair, hk]

/-- C4 witness: the amended theorem at `kg = init`, `d = 522`,
`k = 1024`. -/
theorem keygenerator_default_and_explicit_witness :
    generatedBits (KeyGenerator.init.generate none).1 = some 2048 ∧
    generatedBits ((KeyGenerator.init.set_default_keysize 522).generate none).1
      = some 522 ∧
    generatedBits (KeyGenerator.init.generate (some 1024)).1 = some 1024 ∧
    (KeyGenerator.init.generate (some 1024)).2 = KeyGenerator.init :=
  keygenerator_default_and_explicit KeyGenerator.init 522 1024 (by decide)

/-- C8 counterexample: the claim says the CPU-heavy key generation does
not block the caller before the Deferred is returned, but `generate`
computes the keypair synchronously and returns `defer.succeed(...)`:
the Deferred handed back is never pending — it is already fired with the
fully computed keypair. -/
theorem keygenerator_generate_not_async_cex :
    Deferred.isPending (KeyGenerator.init.generate none).1 = false ∧
    (KeyGenerator.init.generate none).1 =
      Deferred.fired (⟨2048⟩, ⟨2048⟩) := by
  exact ⟨rfl, rfl⟩

/-- C8 (amended): `generate` returns a Deferred that fires with a
(verifying key, signing key) pair of the selected keysize, but the key
generation has already run synchronously in the caller by the time the
Deferred is returned: the result is always an already-fired Deferred,
never a pending one. -/
theorem keygenerator_generate_returns_fired_deferred
    (kg : KeyGenerator) (keysize : Option Nat) :
    ∃ (v : VerifyingKey) (s : SigningKey),
      (kg.generate keysize).1 = Deferred.fired (v, s) ∧
      v.bits = pyOrNat keysize kg.default_keysize ∧
      s.bits = pyOrNat keysize kg.default_keysize ∧
      Deferred.isPending (kg.generate keysize).1 = false := by
  exact ⟨⟨pyOrNat keysize kg.default_keysize⟩,
    ⟨pyOrNat keysize kg.default_keysize⟩, rfl, rfl, rfl, rfl⟩

/-- C2 counterexample: the claim says a configuration violating
`1 ≤ k ≤ happy ≤ n` makes startup fail with a fatal configuration
error, but `init_client` performs no such check: with
`shares.needed = 10`, `shares.happy = 1`, `shares.total = 2` it succeeds
and stores exactly those (invalid) parameters. -/
theorem init_client_no_validation_cex :
    init_client_encoding_params ⟨some 10, some 1, some 2⟩
        DEFAULT_ENCODING_PARAMETERS =
      Except.ok
        { k := 10, happy := 1, n := 2,
          max_segment_size := DEFAULT_MAX_SEGMENT_SIZE } ∧
    validEncodingParams
        { k := 10, happy := 1, n := 2,
          max_segment_size := DEFAULT_MAX_SEGMENT_SIZE } = false := by
  exact ⟨rfl, by decide⟩

/-- C2 (amended): `init_client` never fails on the encoding parameters:
for every configuration it succeeds and stores the configured
`shares.needed`/`shares.happy`/`shares.total` unchanged (falling back to
the defaults 3/7/10 for absent entries), even when they violate
`1 ≤ k ≤ happy ≤ n`. -/
theorem init_client_stores_params_unvalidated
    (cfg : ClientConfig) (dep : EncodingParams) :
    ∃ p : EncodingParams,
      init_client_encoding_params cfg dep = Except.ok p ∧
      p.k = cfg.shares_needed.getD dep.k ∧
      p.happy = cfg.shares_happy.getD dep.happy ∧
      p.n = cfg.shares_total.getD dep.n ∧
      p.max_segment_size = dep.max_segment_size := by
  exact ⟨_, rfl, rfl, rfl, rfl, rfl⟩

/-- C5: if storage is enabled but the tub is not listening, `init_storage`
raises a fatal `ValueError` instead of constructing a storage server;
when storage is disabled it returns without constructing anything. -/
theorem init_storage_guard (cfg : StorageConfig) (listening : Bool)
    (nid : List Nat) (bd : String) :
    (cfg.enabled.getD true = true → listening = false →
      init_storage cfg listening nid bd = Except.error (PyErr.valueError
        "config error: storage is enabled, but tub is not listening")) ∧
    (cfg.enabled.getD true = false →
      init_storage cfg listening nid bd = Except.ok none) := by
  constructor
  · intro he hl
    subst hl
    simp [init_storage, he]
  · intro he
    simp [init_storage, he]

/-- C5 witness: the guard theorem applied to a default (storage-enabled)
configuration with a non-listening tub, and to a storage-disabled
configuration. -/
theorem init_storage_guard_witness :
    init_storage StorageConfig.default false [5] "base" =
      Except.error (PyErr.valueError
        "config error: storage is enabled, but tub is not listening") ∧
    init_storage { StorageConfig.default with enabled := some false }
        true [5] "base" = Except.ok none :=
  ⟨(init_storage_guard StorageConfig.default false [5] "base").1 rfl rfl,
   (init_storage_guard { StorageConfig.default with enabled := some false }
      true [5] "base").2 rfl⟩

/-- C6: the constructed `StorageServer`'s `expiration_sharetypes`
contains `"immutable"` exactly when `expire.immutable` is true (default
true) and `"mutable"` exactly when `expire.mutable` is true (default
true). -/
theorem init_storage_sharetypes (cfg : StorageConfig) (listening : Bool)
    (nid : List Nat) (bd : String) (ss : StorageServer)
    (hss : init_storage cfg listening nid bd = Except.ok (some ss)) :
    ss.expiration_sharetypes.contains "immutable" =
      cfg.expire_immutable.getD true ∧
    ss.expiration_sharetypes.contains "mutable" =
      cfg.expire_mutable.getD true := by
  simp only [init_storage] at hss
  split at hss
  · simp at hss
  · split at hss
    · simp at hss
    · split at hss
      · simp at hss
      · split at hss
        · simp at hss
        · split at hss
          · simp at hss
          · split at hss
            · simp at hss
            · simp only [Except.ok.injEq, Option.some.injEq] at hss
              subst hss
              cases hI : cfg.expire_immutable.getD true <;>
                cases hM : cfg.expire_mutable.getD true <;>
                simp [hI, hM]

/-- C6 witness: the share-type theorem applied to a configuration with
`expire.immutable = false` and `expire.mutable` left at its default; the
constructed server's sharetypes are exactly `["mutable"]`. -/
theorem init_storage_sharetypes_witness :
    (["mutable"] : List String).contains "immutable" =
      (some false).getD true ∧
    (["mutable"] : List String).contains "mutable" =
      (none : Option Bool).getD true := by
  have h := init_storage_sharetypes
    { StorageConfig.default with expire_immutable := some false }
    true [5] "base"
    { storedir := "base/storage", nodeid := [5], reserved_space := 0,
      discard_storage := false, readonly_storage := false,
      expiration_enabled := false, expiration_mode := "age",
      expiration_override_lease_duration := none,
      expiration_cutoff_date := none,
      expiration_sharetypes := ["mutable"] }
    rfl
  exact h

/-- C7: `create_node_from_uri` returns synchronously without raising for
every input: dispatch always yields a node value, and when the
capability string is not recognized the value is the opaque
`unknownNode` rather than an exception. -/
theorem create_node_from_uri_never_raises (w r : Option String) (di : Bool)
    (nm : String) :
    (∃ node, create_node_from_uri w r di nm = Except.ok node) ∧
    (∀ e, parse_cap (w.getD (r.getD "")) = Except.error e →
      create_node_from_uri w r di nm =
        Except.ok (TahoeNode.unknownNode w r)) := by
  refine ⟨⟨_, rfl⟩, ?_⟩
  intro e he
  simp [create_node_from_uri, create_from_cap, he]

/-- C7 witness: dispatch of the malformed capability string `"bogus"`
yields the opaque unusable node, not an exception. -/
theorem create_node_from_uri_never_raises_witness :
    create_node_from_uri (some "bogus") none false "name" =
      Except.ok (TahoeNode.unknownNode (some "bogus") none) :=
  (create_node_from_uri_never_raises (some "bogus") none false "name").2
    (PyErr.valueError "unknown URI type") (by decide)

/-- C10: every magic folder started by `init_magic_folder` is made ready
through `when_connected_enough` at threshold
`min(k, happy + 1)` — which is `min(3, 8) = 3` under the default
encoding parameters, not `happy` itself. -/
theorem init_magic_folder_threshold (p : EncodingParams)
    (folders : List String) (mf : MagicFolderEntry)
    (hmem : mf ∈ init_magic_folder true p folders) :
    mf.connected_threshold = min p.k (p.happy + 1) ∧
    (p = DEFAULT_ENCODING_PARAMETERS →
      mf.connected_threshold = 3 ∧ mf.connected_threshold ≠ p.happy) := by
  simp only [init_magic_folder, if_true] at hmem
  rw [List.mem_map] at hmem
  obtain ⟨nm, -, rfl⟩ := hmem
  refine ⟨rfl, ?_⟩
  intro hp
  subst hp
  constructor
  · show min DEFAULT_ENCODING_PARAMETERS.k
      (DEFAULT_ENCODING_PARAMETERS.happy + 1) = 3
    decide
  · show min DEFAULT_ENCODING_PARAMETERS.k
      (DEFAULT_ENCODING_PARAMETERS.happy + 1) ≠ DEFAULT_ENCODING_PARAMETERS.happy
    decide

/-- C10 witness: the threshold theorem applied to the default encoding
parameters and a single configured folder. -/
theorem init_magic_folder_threshold_witness :
    ({ name := "docs", connected_threshold := 3 } :
        MagicFolderEntry).connected_threshold =
      min DEFAULT_ENCODING_PARAMETERS.k
        (DEFAULT_ENCODING_PARAMETERS.happy + 1) ∧
    (DEFAULT_ENCODING_PARAMETERS = DEFAULT_ENCODING_PARAMETERS →
      ({ name := "docs", connected_threshold := 3 } :
          MagicFolderEntry).connected_threshold = 3 ∧
      ({ name := "docs", connected_threshold := 3 } :
          MagicFolderEntry).connected_threshold ≠
        DEFAULT_ENCODING_PARAMETERS.happy) :=
  init_magic_folder_threshold DEFAULT_ENCODING_PARAMETERS ["docs"]
    { name := "docs", connected_threshold := 3 } (by decide)

/-! ### Helper lemmas about stripping and base-32 strings -/

theorem dropWhile_isPySpace_eq_self {l : List Char}
    (h : ∀ c ∈ l, isPySpace c = false) :
    l.dropWhile isPySpace = l := by
  cases l with
  | nil => rfl
  | cons a t =>
    rw [List.dropWhile_cons]
    simp [h a (List.mem_cons_self a t)]

theorem pyStripList_eq_self {l : List Char}
    (h : ∀ c ∈ l, isPySpace c = false) :
    pyStripList l = l := by
  unfold pyStripList
  rw [dropWhile_isPySpace_eq_self h]
  rw [dropWhile_isPySpace_eq_self (fun c hc => h c (List.mem_reverse.mp hc))]
  exact List.reverse_reverse l

theorem pyStripList_append_newline {l : List Char}
    (h : ∀ c ∈ l, isPySpace c = false) :
    pyStripList (l ++ ['\n']) = l := by
  cases l with
  | nil => decide
  | cons a t =>
    have ha : isPySpace a = false := h a (List.mem_cons_self a t)
    have hall : ∀ c ∈ t.reverse ++ [a], isPySpace c = false := by
      intro c hc
      rcases List.mem_append.mp hc with hc | hc
      · exact h c (List.mem_cons_of_mem a (List.mem_reverse.mp hc))
      · rw [List.mem_singleton.mp hc]
        exact ha
    unfold pyStripList
    rw [List.cons_append, List.dropWhile_cons, if_neg (by simp [ha])]
    have hrev : (a :: (t ++ ['\n'])).reverse = '\n' :: (t.reverse ++ [a]) := by
      simp
    rw [hrev, List.dropWhile_cons, if_pos (by decide)]
    rw [dropWhile_isPySpace_eq_self hall]
    simp

theorem b2aList_noSpace (bs : List Nat) :
    ∀ c ∈ b2aList bs, isPySpace c = false := by
  intro c hc
  unfold b2aList at hc
  rw [List.mem_map] at hc
  obtain ⟨g, -, rfl⟩ := hc
  by_cases hn : groupVal g < base32Alphabet.length
  · rw [List.getD_eq_getElem base32Alphabet 'a' hn]
    have hmem : base32Alphabet[groupVal g] ∈ base32Alphabet :=
      List.getElem_mem hn
    have hall : ∀ c ∈ base32Alphabet, isPySpace c = false := by decide
    exact hall _ hmem
  · rw [List.getD_eq_default base32Alphabet 'a' (Nat.le_of_not_lt hn)]
    decide

theorem pyStrip_b2a (bs : List Nat) : pyStrip (b2a bs) = b2a bs := by
  unfold pyStrip b2a
  exact congrArg String.mk (pyStripList_eq_self (b2aList_noSpace bs))

theorem pyStrip_b2a_newline (bs : List Nat) :
    pyStrip (b2a bs ++ "\n") = b2a bs := by
  have hd : (b2a bs ++ "\n").data = b2aList bs ++ ['\n'] := by
    rw [String.data_append]
    rfl
  unfold pyStrip
  rw [hd]
  exact congrArg String.mk (pyStripList_append_newline (b2aList_noSpace bs))

theorem str_append_newline_ne_empty (s : String) : s ++ "\n" ≠ "" := by
  intro h
  have h2 := congrArg String.data h
  rw [String.data_append] at h2
  simp at h2

theorem removePfx_append (p s : String) : removePfx (p ++ s) p = s := by
  unfold removePfx
  rw [String.data_append, List.drop_left]

/-- C3: the permutation seed is stable.  (i) If a recorded
`permutation-seed` file exists, its contents are returned stripped and
nothing is rewritten; (ii) with no recorded seed and existing shares,
the TubID (`nodeid`) is reused as the seed; (iii) with no recorded seed
and no shares, the seed is derived from the node's public key; in both
of the latter cases the chosen seed is persisted with a trailing
newline, and (iv) a later call — even with a different `have_shares`
answer — returns the very same seed and leaves the store unchanged. -/
theorem init_permutation_seed_spec :
    (∀ (st : SeedStore) (hs : Bool) (nid : List Nat)
        (pk : Ed25519PublicKey) (s : String),
        st.permutation_seed_file = some s → s ≠ "" →
        init_permutation_seed st hs nid pk = (pyStrip s, st)) ∧
    (∀ (st : SeedStore) (nid : List Nat) (pk : Ed25519PublicKey),
        pyTruthyOptStr st.permutation_seed_file = false →
        init_permutation_seed st true nid pk =
          (b2a nid, { permutation_seed_file := some (b2a nid ++ "\n") })) ∧
    (∀ (st : SeedStore) (nid : List Nat) (pk : Ed25519PublicKey),
        pyTruthyOptStr st.permutation_seed_file = false →
        init_permutation_seed st false nid pk =
          (b2a (asciiBytes (b2a pk.bytes)),
           { permutation_seed_file :=
               some (b2a (asciiBytes (b2a pk.bytes)) ++ "\n") })) ∧
    (∀ (st : SeedStore) (hs hs₂ : Bool) (nid : List Nat)
        (pk : Ed25519PublicKey),
        init_permutation_seed (init_permutation_seed st hs nid pk).2
            hs₂ nid pk =
          init_permutation_seed st hs nid pk) := by
  have hkey : ∀ pk : Ed25519PublicKey,
      removePfx (string_from_verifying_key pk) PUBLIC_KEY_PFX =
        b2a pk.bytes := by
    intro pk
    unfold string_from_verifying_key
    exact removePfx_append PUBLIC_KEY_PFX (b2a pk.bytes)
  refine ⟨?_, ?_, ?_, ?_⟩
  · intro st hs nid pk s hfile hne
    simp [init_permutation_seed, hfile, pyTruthyOptStr, hne]
  · intro st nid pk hfalsy
    simp [init_permutation_seed, hfalsy, pyStrip_b2a]
  · intro st nid pk hfalsy
    simp [init_permutation_seed, hfalsy, hkey pk, pyStrip_b2a]
  · intro st hs hs₂ nid pk
    cases htr : pyTruthyOptStr st.permutation_seed_file with
    | true => simp [init_permutation_seed, htr]
    | false =>
      cases hs with
      | true =>
        have htr2 : pyTruthyOptStr (some (b2a nid ++ "\n")) = true := by
          simp [pyTruthyOptStr, str_append_newline_ne_empty]
        simp [init_permutation_seed, htr, htr2, pyStrip_b2a,
          pyStrip_b2a_newline]
      | false =>
        have htr2 : pyTruthyOptStr
            (some (b2a (asciiBytes (removePfx (string_from_verifying_key pk)
              PUBLIC_KEY_PFX)) ++ "\n")) = true := by
          simp [pyTruthyOptStr, str_append_newline_ne_empty]
        simp [init_permutation_seed, htr, htr2, pyStrip_b2a,
          pyStrip_b2a_newline]

/-- C3 witness: the four parts of the seed theorem at concrete inputs —
a recorded seed file `"seedvalue\n"` is returned as `"seedvalue"`; "has
shares" reuses the TubID `[0]` (base-32 `"aa"`); a fresh server derives
from its public key (`"mfsq"`); and a repeated call returns the same
value and store. -/
theorem init_permutation_seed_spec_witness :
    init_permutation_seed ⟨some "seedvalue\n"⟩ true [7] ⟨[1]⟩ =
      ("seedvalue", ⟨some "seedvalue\n"⟩) ∧
    init_permutation_seed ⟨none⟩ true [0] ⟨[1]⟩ = ("aa", ⟨some "aa\n"⟩) ∧
    init_permutation_seed ⟨none⟩ false [0] ⟨[1]⟩ =
      ("mfsq", ⟨some "mfsq\n"⟩) ∧
    init_permutation_seed (init_permutation_seed ⟨none⟩ false [2] ⟨[3]⟩).2
        true [2] ⟨[3]⟩ =
      init_permutation_seed ⟨none⟩ false [2] ⟨[3]⟩ := by
  refine ⟨?_, ?_, ?_, ?_⟩
  · exact (init_permutation_seed_spec.1 ⟨some "seedvalue\n"⟩ true [7] ⟨[1]⟩
      "seedvalue\n" rfl (by decide)).trans (by decide)
  · exact (init_permutation_seed_spec.2.1 ⟨none⟩ [0] ⟨[1]⟩ rfl).trans
      (by decide)
  · exact (init_permutation_seed_spec.2.2.1 ⟨none⟩ [0] ⟨[1]⟩ rfl).trans
      (by decide)
  · exact init_permutation_seed_spec.2.2.2 ⟨none⟩ false true [2] ⟨[3]⟩

end TahoeClient
